import Mathlib

/-!
Shallow embedding of the price tracker's reconciliation logic:
`PriceTracker.update_product` and `PriceTracker.track_prices` from
src/price_tracker.py, over the relational schema that
src/setup_db.py's `create_tables` creates (a `products` table keyed by
sku and an append-only `price_history` table).
-/

/-- A decimal number with value `m / 10 ^ e`, mirroring Python's
`decimal.Decimal`, which keeps an integer coefficient and a power-of-ten
exponent. `update_product` builds one with `Decimal(str(product['price']))`. -/
structure Dec where
  m : Int
  e : Nat
deriving DecidableEq

/-- The rational value a `Dec` denotes. -/
def Dec.toRat (a : Dec) : ℚ := (a.m : ℚ) / ((10 : ℚ) ^ a.e)

/-- Numeric equality of decimals, as `Decimal.__eq__` compares numeric values,
not representations: cross-multiplied coefficient comparison. This is the
comparison `current_price != new_price` performs at line 116 of
src/price_tracker.py. -/
def Dec.deq (a b : Dec) : Bool := a.m * (10 : Int) ^ b.e == b.m * (10 : Int) ^ a.e

/-- The dictionary keys `update_product` reads from an item record;
accessing a missing required key raises `KeyError(field)`. -/
inductive DictKey where
  | sku
  | model
  | color
  | price
  | in_stock
deriving DecidableEq

/-- An item record from the API response: a flat mapping, where a missing key
is `none`. `sku`, `model`, `color`, `price` and `in_stock` are read with
`product[...]` (KeyError when absent); `ean` and `cat_name` are read with
`product.get(..., '')`. -/
structure ItemRecord where
  sku : Option String
  model : Option String
  color : Option String
  price : Option Dec
  in_stock : Option Int
  ean : Option String
  cat_name : Option String
deriving DecidableEq

/-- A row of the `products` table (src/setup_db.py, `create_tables`):
sku is the primary key; `last_updated` defaults to the current timestamp. -/
structure ProductRow where
  sku : String
  model : String
  color : String
  current_price : Dec
  stock_level : Int
  ean : String
  category : String
  last_updated : Nat
deriving DecidableEq

/-- A row of the `price_history` table: sku, price and stock level at the time
of observation, with a current-timestamp default. -/
structure HistoryRow where
  sku : String
  price : Dec
  stock_level : Int
  timestamp : Nat
deriving DecidableEq

/-- The persisted database state: the two tables. -/
structure DB where
  products : List ProductRow
  price_history : List HistoryRow
deriving DecidableEq

/-- Reconcile outcomes, named as in the spec. In the code they correspond to
the three paths through `update_product`: the insert branch, the update branch
with a history insert, and the update branch without one. -/
inductive ReconcileOutcome where
  | Inserted
  | UpdatedWithHistory
  | UpdatedNoHistory
deriving DecidableEq

/-- The error that escapes `update_product`. When the record has a sku, the
except block logs `Error updating product {sku}: ...` and re-raises the
original exception, so the propagated failure identifies the sku and the
missing field. When the sku key itself is missing, formatting that log line
raises `KeyError` for the sku key again. -/
inductive UpdateErr where
  | identified (sku : String) (cause : DictKey)
  | skuMissing
deriving DecidableEq

/-- The lookup `SELECT current_price FROM products WHERE sku = %s` followed by
`fetchone()`: the first row whose sku matches, if any. -/
def DB.findProduct (db : DB) (sku : String) : Option ProductRow :=
  db.products.find? (fun r => r.sku == sku)

/-- The per-row effect of
`UPDATE products SET current_price, stock_level, last_updated WHERE sku = %s`. -/
def updRow (sku : String) (new_price : Dec) (stock : Int) (now : Nat)
    (r : ProductRow) : ProductRow :=
  if r.sku == sku then
    { r with current_price := new_price, stock_level := stock,
             last_updated := now }
  else r

/-- The default `''` that `product.get('ean', '')` and
`product.get('cat_name', '')` supply. -/
def emptyStr : String := ""

/-- The body of the try block of `PriceTracker.update_product` (lines 68-124):
the statements executed inside the open transaction, before the commit.
A missing required key is the raised `KeyError`'s field; the returned `DB` is
the uncommitted working state. DictKey accesses happen in source order:
`product['sku']` (line 73), the SELECT, `product['price']` (line 77), then per
branch `product['model']`, `product['color']`, `product['in_stock']`. -/
def updateProductSteps (p : ItemRecord) (now : Nat) (db : DB) :
    Except DictKey (DB × ReconcileOutcome) :=
  match p.sku with
  | none => .error .sku
  | some sku =>
    let result := db.findProduct sku
    match p.price with
    | none => .error .price
    | some new_price =>
      match result with
      | none =>
        match p.model with
        | none => .error .model
        | some model =>
          match p.color with
          | none => .error .color
          | some color =>
            match p.in_stock with
            | none => .error .in_stock
            | some stock =>
              .ok ({ products := db.products ++
                       [{ sku := sku, model := model, color := color,
                          current_price := new_price, stock_level := stock,
                          ean := p.ean.getD emptyStr,
                          category := p.cat_name.getD emptyStr,
                          last_updated := now }],
                     price_history := db.price_history ++
                       [{ sku := sku, price := new_price, stock_level := stock,
                          timestamp := now }] },
                   .Inserted)
      | some row0 =>
        match p.in_stock with
        | none => .error .in_stock
        | some stock =>
          let products1 := db.products.map (updRow sku new_price stock now)
          if Dec.deq row0.current_price new_price then
            .ok ({ products := products1,
                   price_history := db.price_history },
                 .UpdatedNoHistory)
          else
            .ok ({ products := products1,
                   price_history := db.price_history ++
                     [{ sku := sku, price := new_price, stock_level := stock,
                        timestamp := now }] },
                 .UpdatedWithHistory)

/-- `PriceTracker.update_product`: run the steps; on success commit the
working state (line 124); on any exception roll back (line 127), so the caller
keeps the state it had, and propagate an error that names the record's sku
when it has one. -/
def update_product (p : ItemRecord) (now : Nat) (db : DB) :
    DB × Except UpdateErr ReconcileOutcome :=
  match updateProductSteps p now db with
  | .ok (db1, outcome) => (db1, .ok outcome)
  | .error f =>
    match p.sku with
    | some sku => (db, .error (.identified sku f))
    | none => (db, .error .skuMissing)

/-- `PriceTracker.track_prices` over an already-fetched batch (lines 141-146):
update each product in order, catching the per-item exception, logging it and
continuing with the next item. Returns the final committed state and the
logged per-item errors in order. -/
def track_prices (ps : List ItemRecord) (now : Nat) (db : DB) :
    DB × List UpdateErr :=
  match ps with
  | [] => (db, [])
  | p :: rest =>
    match update_product p now db with
    | (db1, .ok _) => track_prices rest now db1
    | (db1, .error e) =>
      let r := track_prices rest now db1
      (r.1, e :: r.2)

/-- The content of a current-state row apart from its timestamp. -/
def ProductRow.content (r : ProductRow) : ProductRow := { r with last_updated := 0 }

/-- Concrete strings for witness scenarios. -/
def sku1 : String := "SKU1"

def sku2 : String := "SKU2"

def sku3 : String := "SKU3"

def modelA : String := "alpha"

def colorRed : String := "red"

/-- A well-formed first observation of SKU1. -/
def item1 : ItemRecord :=
  { sku := some sku1, model := some modelA, color := some colorRed,
    price := some ⟨1999, 2⟩, in_stock := some 5, ean := none, cat_name := none }

/-- A record for SKU2 whose required model key is missing, so its
reconciliation fails. -/
def item2bad : ItemRecord :=
  { sku := some sku2, model := none, color := some colorRed,
    price := some ⟨999, 2⟩, in_stock := some 1, ean := none, cat_name := none }

/-- A well-formed first observation of SKU3. -/
def item3 : ItemRecord :=
  { sku := some sku3, model := some modelA, color := some colorRed,
    price := some ⟨500, 2⟩, in_stock := some 2, ean := none, cat_name := none }

/-- The current-state row that reconciling `item1` on an empty database
creates. -/
def rowOne : ProductRow :=
  { sku := sku1, model := modelA, color := colorRed, current_price := ⟨1999, 2⟩,
    stock_level := 5, ean := emptyStr, category := emptyStr, last_updated := 7 }

/-- A database holding SKU1 at price 19.99 with its initial history entry. -/
def dbOne : DB :=
  ⟨[rowOne],
   [{ sku := sku1, price := ⟨1999, 2⟩, stock_level := 5, timestamp := 7 }]⟩

/-- Claim C1: for every item record whose identifier has no existing
current-state row, reconciling it inserts exactly one current-state row
carrying the observed identifier, model, color, price and stock level, and
inserts exactly one history entry carrying the observed price and stock level,
with outcome Inserted. -/
theorem C1_insert (p : ItemRecord) (now : Nat) (db : DB)
    (sku model color : String) (price : Dec) (stock : Int)
    (hsku : p.sku = some sku) (hm : p.model = some model)
    (hc : p.color = some color) (hp : p.price = some price)
    (hs : p.in_stock = some stock)
    (habsent : db.findProduct sku = none) :
    update_product p now db =
      ({ products := db.products ++
           [{ sku := sku, model := model, color := color, current_price := price,
              stock_level := stock, ean := p.ean.getD emptyStr,
              category := p.cat_name.getD emptyStr, last_updated := now }],
         price_history := db.price_history ++
           [{ sku := sku, price := price, stock_level := stock,
              timestamp := now }] },
       .ok .Inserted) := by
  simp [update_product, updateProductSteps, hsku, hm, hc, hp, hs, habsent]

/-- Witness for C1: first-ever observation of SKU1 at price 19.99, stock 5,
on an empty database. -/
theorem C1_insert_witness :
    update_product
      { sku := some sku1, model := some modelA, color := some colorRed,
        price := some ⟨1999, 2⟩, in_stock := some 5, ean := none,
        cat_name := none } 7 ⟨[], []⟩ =
      ({ products :=
           [{ sku := sku1, model := modelA, color := colorRed,
              current_price := ⟨1999, 2⟩, stock_level := 5, ean := emptyStr,
              category := emptyStr, last_updated := 7 }],
         price_history :=
           [{ sku := sku1, price := ⟨1999, 2⟩, stock_level := 5,
              timestamp := 7 }] },
       .ok .Inserted) := by
  have h := C1_insert
    { sku := some sku1, model := some modelA, color := some colorRed,
      price := some ⟨1999, 2⟩, in_stock := some 5, ean := none,
      cat_name := none } 7 ⟨[], []⟩ sku1 modelA colorRed ⟨1999, 2⟩ 5
    rfl rfl rfl rfl rfl rfl
  simpa using h

/-- Claim C2: for every item record whose identifier already has a
current-state row and whose observed price equals the stored price under exact
decimal comparison, reconciling updates that row's stock level and timestamp
(and price, to the equal value) but appends no history entry, with outcome
UpdatedNoHistory. -/
theorem C2_update_no_history (p : ItemRecord) (now : Nat) (db : DB)
    (sku : String) (price : Dec) (stock : Int) (row0 : ProductRow)
    (hsku : p.sku = some sku) (hp : p.price = some price)
    (hs : p.in_stock = some stock)
    (hfound : db.findProduct sku = some row0)
    (heq : Dec.deq row0.current_price price = true) :
    update_product p now db =
      ({ products := db.products.map (updRow sku price stock now),
         price_history := db.price_history },
       .ok .UpdatedNoHistory) := by
  simp [update_product, updateProductSteps, hsku, hp, hs, hfound, heq]

/-- Witness for C2: SKU1 stored at 19.99 observed again at 19.990 (numerically
equal), stock 3: stock and timestamp update, no new history row. -/
theorem C2_update_no_history_witness :
    update_product
      { sku := some sku1, model := some modelA, color := some colorRed,
        price := some ⟨19990, 3⟩, in_stock := some 3, ean := none,
        cat_name := none } 8
      ⟨[{ sku := sku1, model := modelA, color := colorRed,
          current_price := ⟨1999, 2⟩, stock_level := 5, ean := emptyStr,
          category := emptyStr, last_updated := 7 }],
       [{ sku := sku1, price := ⟨1999, 2⟩, stock_level := 5, timestamp := 7 }]⟩ =
      ({ products :=
           [{ sku := sku1, model := modelA, color := colorRed,
              current_price := ⟨19990, 3⟩, stock_level := 3, ean := emptyStr,
              category := emptyStr, last_updated := 8 }],
         price_history :=
           [{ sku := sku1, price := ⟨1999, 2⟩, stock_level := 5,
              timestamp := 7 }] },
       .ok .UpdatedNoHistory) := by
  have h := C2_update_no_history
    { sku := some sku1, model := some modelA, color := some colorRed,
      price := some ⟨19990, 3⟩, in_stock := some 3, ean := none,
      cat_name := none } 8
    ⟨[{ sku := sku1, model := modelA, color := colorRed,
        current_price := ⟨1999, 2⟩, stock_level := 5, ean := emptyStr,
        category := emptyStr, last_updated := 7 }],
     [{ sku := sku1, price := ⟨1999, 2⟩, stock_level := 5, timestamp := 7 }]⟩
    sku1 ⟨19990, 3⟩ 3
    { sku := sku1, model := modelA, color := colorRed,
      current_price := ⟨1999, 2⟩, stock_level := 5, ean := emptyStr,
      category := emptyStr, last_updated := 7 }
    rfl rfl rfl (by decide) (by decide)
  rw [h]
  simp [updRow, sku1, emptyStr]

/-- Claim C3: for every item record whose identifier already has a
current-state row and whose observed price differs from the stored price,
reconciling updates the row to the new price and stock and appends exactly one
history entry carrying the new price and observed stock, leaving every
previously written history entry unchanged, with outcome UpdatedWithHistory. -/
theorem C3_update_with_history (p : ItemRecord) (now : Nat) (db : DB)
    (sku : String) (price : Dec) (stock : Int) (row0 : ProductRow)
    (hsku : p.sku = some sku) (hp : p.price = some price)
    (hs : p.in_stock = some stock)
    (hfound : db.findProduct sku = some row0)
    (hne : Dec.deq row0.current_price price = false) :
    update_product p now db =
      ({ products := db.products.map (updRow sku price stock now),
         price_history := db.price_history ++
           [{ sku := sku, price := price, stock_level := stock,
              timestamp := now }] },
       .ok .UpdatedWithHistory) := by
  simp [update_product, updateProductSteps, hsku, hp, hs, hfound, hne]

/-- Witness for C3: SKU1 stored at 19.99 observed again at 17.99, stock 3:
price updates, one history row (17.99, 3) is appended, the prior history row
is untouched. -/
theorem C3_update_with_history_witness :
    update_product
      { sku := some sku1, model := some modelA, color := some colorRed,
        price := some ⟨1799, 2⟩, in_stock := some 3, ean := none,
        cat_name := none } 9
      ⟨[{ sku := sku1, model := modelA, color := colorRed,
          current_price := ⟨1999, 2⟩, stock_level := 5, ean := emptyStr,
          category := emptyStr, last_updated := 7 }],
       [{ sku := sku1, price := ⟨1999, 2⟩, stock_level := 5, timestamp := 7 }]⟩ =
      ({ products :=
           [{ sku := sku1, model := modelA, color := colorRed,
              current_price := ⟨1799, 2⟩, stock_level := 3, ean := emptyStr,
              category := emptyStr, last_updated := 9 }],
         price_history :=
           [{ sku := sku1, price := ⟨1999, 2⟩, stock_level := 5,
              timestamp := 7 },
            { sku := sku1, price := ⟨1799, 2⟩, stock_level := 3,
              timestamp := 9 }] },
       .ok .UpdatedWithHistory) := by
  have h := C3_update_with_history
    { sku := some sku1, model := some modelA, color := some colorRed,
      price := some ⟨1799, 2⟩, in_stock := some 3, ean := none,
      cat_name := none } 9
    ⟨[{ sku := sku1, model := modelA, color := colorRed,
        current_price := ⟨1999, 2⟩, stock_level := 5, ean := emptyStr,
        category := emptyStr, last_updated := 7 }],
     [{ sku := sku1, price := ⟨1999, 2⟩, stock_level := 5, timestamp := 7 }]⟩
    sku1 ⟨1799, 2⟩ 3
    { sku := sku1, model := modelA, color := colorRed,
      current_price := ⟨1999, 2⟩, stock_level := 5, ean := emptyStr,
      category := emptyStr, last_updated := 7 }
    rfl rfl rfl (by decide) (by decide)
  rw [h]
  simp [updRow, sku1, emptyStr]

/-- A failed `update_product` returns the caller's state untouched together
with the propagated error: the rollback path commits nothing. -/
theorem update_product_fail (p : ItemRecord) (now : Nat) (db : DB)
    (e : UpdateErr) (h : (update_product p now db).2 = .error e) :
    update_product p now db = (db, .error e) := by
  unfold update_product at h ⊢
  revert h
  cases updateProductSteps p now db with
  | ok v =>
    cases v with
    | mk db1 o =>
      intro h
      simp at h
  | error f =>
    cases p.sku with
    | some s =>
      intro h
      simp at h
      simp [h]
    | none =>
      intro h
      simp at h
      simp [h]

/-- Claim C4: if any step of reconciling a single item fails, the transaction
is rolled back, so both tables are exactly as they were before the call, and
the propagated error identifies that item's identifier. -/
theorem C4_rollback (p : ItemRecord) (now : Nat) (db : DB) (e : UpdateErr)
    (h : (update_product p now db).2 = .error e) :
    (update_product p now db).1 = db ∧
      ∀ sku, p.sku = some sku → ∃ cause, e = .identified sku cause := by
  have hfail := update_product_fail p now db e h
  refine ⟨by rw [hfail], ?_⟩
  intro sku hsku
  unfold update_product at hfail
  revert hfail
  cases updateProductSteps p now db with
  | ok v =>
    cases v with
    | mk db1 o =>
      intro hfail
      simp at hfail
  | error f =>
    rw [hsku]
    intro hfail
    simp at hfail
    exact ⟨f, hfail.symm⟩

/-- Witness for C4: a record for SKU2 lacking the required model key fails on
the empty database, the state is unchanged and the error names SKU2. -/
theorem C4_rollback_witness :
    (update_product
      { sku := some sku2, model := none, color := some colorRed,
        price := some ⟨999, 2⟩, in_stock := some 1, ean := none,
        cat_name := none } 3 ⟨[], []⟩).1 = ⟨[], []⟩ ∧
      ∀ sku, (ItemRecord.sku
        { sku := some sku2, model := none, color := some colorRed,
          price := some ⟨999, 2⟩, in_stock := some 1, ean := none,
          cat_name := none }) = some sku →
        ∃ cause, UpdateErr.identified sku2 DictKey.model =
          .identified sku cause := by
  exact C4_rollback
    { sku := some sku2, model := none, color := some colorRed,
      price := some ⟨999, 2⟩, in_stock := some 1, ean := none,
      cat_name := none } 3 ⟨[], []⟩
    (.identified sku2 .model) rfl

/-- Splitting a batch: running `track_prices` on a concatenation runs the
first part, then the second on the state the first part left behind, and the
reported errors concatenate in order. -/
theorem track_prices_append (xs ys : List ItemRecord) (now : Nat) (db : DB) :
    track_prices (xs ++ ys) now db =
      ((track_prices ys now (track_prices xs now db).1).1,
       (track_prices xs now db).2 ++
         (track_prices ys now (track_prices xs now db).1).2) := by
  induction xs generalizing db with
  | nil => simp [track_prices]
  | cons p rest ih =>
    simp only [List.cons_append, track_prices]
    cases hup : update_product p now db with
    | mk db1 r =>
      cases r with
      | ok o => simp [ih]
      | error e => simp [ih]

/-- Claim C5: when reconciling one item of a batch fails, the batch driver
still reconciles and commits every other item in order: the failing item
contributes nothing to the state, its error is recorded, and iteration
continues with the remaining items. -/
theorem C5_batch_continues (xs ys : List ItemRecord) (p : ItemRecord)
    (now : Nat) (db : DB) (e : UpdateErr)
    (hfail : (update_product p now (track_prices xs now db).1).2 = .error e) :
    track_prices (xs ++ p :: ys) now db =
      ((track_prices ys now (track_prices xs now db).1).1,
       (track_prices xs now db).2 ++
         e :: (track_prices ys now (track_prices xs now db).1).2) := by
  have hmid := update_product_fail p now (track_prices xs now db).1 e hfail
  rw [track_prices_append xs (p :: ys) now db]
  have h1 : track_prices (p :: ys) now (track_prices xs now db).1 =
      ((track_prices ys now (track_prices xs now db).1).1,
       e :: (track_prices ys now (track_prices xs now db).1).2) := by
    rw [track_prices, hmid]
  rw [h1]

/-- Witness for C5: a batch of three items where the second fails (missing
model key): items 1 and 3 are still reconciled and committed, and only the
second item's error is reported. -/
theorem C5_batch_continues_witness :
    track_prices ([item1] ++ item2bad :: [item3]) 4 ⟨[], []⟩ =
      ((track_prices [item3] 4 (track_prices [item1] 4 ⟨[], []⟩).1).1,
       (track_prices [item1] 4 ⟨[], []⟩).2 ++
         UpdateErr.identified sku2 DictKey.model ::
           (track_prices [item3] 4 (track_prices [item1] 4 ⟨[], []⟩).1).2) :=
  C5_batch_continues [item1] [item3] item2bad 4 ⟨[], []⟩
    (.identified sku2 .model) rfl

/-- `Dec.deq` is decimal value equality: two decimals compare equal exactly
when they denote the same rational number. -/
theorem Dec.deq_iff_toRat (a b : Dec) : Dec.deq a b = true ↔ a.toRat = b.toRat := by
  unfold Dec.deq Dec.toRat
  rw [beq_iff_eq, div_eq_div_iff (by positivity) (by positivity)]
  constructor
  · intro h
    exact_mod_cast h
  · intro h
    exact_mod_cast h

/-- Claim C6: the price comparison that decides whether a history entry is
appended is exact decimal equality: decimals compare equal exactly when they
denote the same rational (so 10.50 equals 10.5000, while 10.001 and 10.002
differ), and on a previously-seen item the history is left unchanged precisely
when that comparison finds the stored and observed prices equal. -/
theorem C6_exact_decimal_comparison :
    (∀ a b : Dec, Dec.deq a b = true ↔ Dec.toRat a = Dec.toRat b) ∧
    Dec.deq ⟨1050, 2⟩ ⟨105000, 4⟩ = true ∧
    Dec.deq ⟨10001, 3⟩ ⟨10002, 3⟩ = false ∧
    (∀ (p : ItemRecord) (now : Nat) (db : DB) (sku : String) (price : Dec)
       (stock : Int) (row0 : ProductRow),
       p.sku = some sku → p.price = some price → p.in_stock = some stock →
       db.findProduct sku = some row0 →
       ((update_product p now db).1.price_history = db.price_history ↔
         Dec.deq row0.current_price price = true)) := by
  refine ⟨Dec.deq_iff_toRat, by decide, by decide, ?_⟩
  intro p now db sku price stock row0 hsku hp hs hfound
  by_cases heq : Dec.deq row0.current_price price = true
  · simp [update_product, updateProductSteps, hsku, hp, hs, hfound, heq]
  · rw [Bool.not_eq_true] at heq
    simp [update_product, updateProductSteps, hsku, hp, hs, hfound, heq]

/-- Witness for C6: 10.50 equals 10.5000; and observing SKU1 again at the
stored price 19.99 leaves the history of `dbOne` unchanged, the comparison of
stored and observed price having returned equal. -/
theorem C6_exact_decimal_comparison_witness :
    Dec.deq ⟨1050, 2⟩ ⟨105000, 4⟩ = true ∧
    ((update_product item1 9 dbOne).1.price_history = dbOne.price_history ↔
      Dec.deq rowOne.current_price ⟨1999, 2⟩ = true) :=
  ⟨C6_exact_decimal_comparison.2.1,
   C6_exact_decimal_comparison.2.2.2 item1 9 dbOne sku1 ⟨1999, 2⟩ 5 rowOne
     rfl rfl rfl rfl⟩

/-- The UPDATE per-row effect never changes a row's sku. -/
theorem updRow_sku (sku : String) (np : Dec) (st : Int) (n : Nat)
    (r : ProductRow) : (updRow sku np st n r).sku = r.sku := by
  unfold updRow
  split
  · rfl
  · rfl

/-- Applying the same UPDATE per-row effect twice collapses to once. -/
theorem updRow_updRow (sku : String) (np : Dec) (st : Int) (n1 n2 : Nat)
    (r : ProductRow) :
    updRow sku np st n2 (updRow sku np st n1 r) = updRow sku np st n2 r := by
  unfold updRow
  by_cases h : (r.sku == sku) = true
  · simp [h]
  · simp [h]

/-- The timestamp a row was updated at does not show in its content. -/
theorem content_updRow (sku : String) (np : Dec) (st : Int) (n1 n2 : Nat)
    (r : ProductRow) :
    (updRow sku np st n2 r).content = (updRow sku np st n1 r).content := by
  unfold updRow ProductRow.content
  by_cases h : (r.sku == sku) = true
  · simp [h]
  · simp [h]

/-- Updating a row to the price and stock it already holds preserves its
content. -/
theorem content_updRow_eq (sku : String) (np : Dec) (st : Int) (n : Nat)
    (r : ProductRow) (h1 : r.current_price = np) (h2 : r.stock_level = st) :
    (updRow sku np st n r).content = r.content := by
  unfold updRow ProductRow.content
  by_cases h : (r.sku == sku) = true
  · simp [h, ← h1, ← h2]
  · simp [h]

/-- Looking a sku up after the UPDATE statement finds the updated image of
whatever row the lookup found before. -/
theorem findProduct_map_updRow (l : List ProductRow) (sku : String) (np : Dec)
    (st : Int) (n : Nat) :
    (l.map (updRow sku np st n)).find? (fun r => r.sku == sku) =
      (l.find? (fun r => r.sku == sku)).map (updRow sku np st n) := by
  rw [List.find?_map]
  have hpred : ((fun r : ProductRow => r.sku == sku) ∘ updRow sku np st n) =
      fun r : ProductRow => r.sku == sku := by
    funext r
    simp [Function.comp, updRow_sku]
  rw [hpred]

/-- Decimal value equality is reflexive. -/
theorem Dec.deq_refl (a : Dec) : Dec.deq a a = true := by
  simp [Dec.deq]

/-- A matched row's price after the UPDATE is the observed price. -/
theorem updRow_current_price (sku : String) (np : Dec) (st : Int) (n : Nat)
    (r : ProductRow) (h : (r.sku == sku) = true) :
    (updRow sku np st n r).current_price = np := by
  simp [updRow, h]

/-- Claim C7: reconciling the same item twice in a row is idempotent: whenever
the first call succeeds, the second call takes the no-history branch, leaves
every current-state row's content exactly as the first call produced it (only
the freshly stamped timestamp may differ), and appends no history entry. -/
theorem C7_idempotent (p : ItemRecord) (now1 now2 : Nat) (db db1 : DB)
    (o1 : ReconcileOutcome)
    (h1 : update_product p now1 db = (db1, .ok o1)) :
    ∃ db2, update_product p now2 db1 = (db2, .ok .UpdatedNoHistory) ∧
      db2.price_history = db1.price_history ∧
      db2.products.map ProductRow.content =
        db1.products.map ProductRow.content := by
  cases hsku : p.sku with
  | none => simp [update_product, updateProductSteps, hsku] at h1
  | some sku =>
  cases hp : p.price with
  | none => simp [update_product, updateProductSteps, hsku, hp] at h1
  | some price =>
  cases hfound : db.findProduct sku with
  | none =>
    cases hm : p.model with
    | none => simp [update_product, updateProductSteps, hsku, hp, hfound, hm] at h1
    | some model =>
    cases hc : p.color with
    | none =>
      simp [update_product, updateProductSteps, hsku, hp, hfound, hm, hc] at h1
    | some color =>
    cases hs : p.in_stock with
    | none =>
      simp [update_product, updateProductSteps, hsku, hp, hfound, hm, hc, hs] at h1
    | some stock =>
    have h1' : db1 =
        { products := db.products ++
            [{ sku := sku, model := model, color := color,
               current_price := price, stock_level := stock,
               ean := p.ean.getD emptyStr,
               category := p.cat_name.getD emptyStr, last_updated := now1 }],
          price_history := db.price_history ++
            [{ sku := sku, price := price, stock_level := stock,
               timestamp := now1 }] } := by
      simp [update_product, updateProductSteps, hsku, hp, hfound, hm, hc, hs] at h1
      exact h1.1.symm
    have hall : ∀ r ∈ db.products, ¬ ((fun r : ProductRow => r.sku == sku) r = true) := by
      exact List.find?_eq_none.mp hfound
    have hfound1 : db1.findProduct sku =
        some { sku := sku, model := model, color := color,
               current_price := price, stock_level := stock,
               ean := p.ean.getD emptyStr,
               category := p.cat_name.getD emptyStr,
               last_updated := now1 } := by
      rw [h1']
      unfold DB.findProduct
      rw [List.find?_append]
      rw [List.find?_eq_none.mpr hall]
      simp
    refine ⟨{ products := db1.products.map (updRow sku price stock now2),
              price_history := db1.price_history }, by
      simp [update_product, updateProductSteps, hsku, hp, hs, hfound1,
        Dec.deq_refl], rfl, ?_⟩
    conv_rhs => rw [h1']
    rw [h1']
    simp only [List.map_append, List.map_map]
    congr 1
    · apply List.map_congr_left
      intro r hr
      have hne : ¬ ((r.sku == sku) = true) := hall r hr
      simp [Function.comp, updRow, hne]
    · simp only [List.map_cons, List.map_nil, Function.comp]
      rw [content_updRow_eq sku price stock now2 _ rfl rfl]
  | some row0 =>
    cases hs : p.in_stock with
    | none =>
      simp [update_product, updateProductSteps, hsku, hp, hfound, hs] at h1
    | some stock =>
    have hfound0 : db.products.find? (fun r => r.sku == sku) = some row0 :=
      hfound
    have hrow0 : (row0.sku == sku) = true :=
      List.find?_some (p := fun r : ProductRow => r.sku == sku) hfound0
    have h1' : db1 =
        { products := db.products.map (updRow sku price stock now1),
          price_history := (update_product p now1 db).1.price_history } := by
      by_cases hdeq : Dec.deq row0.current_price price = true
      · simp [update_product, updateProductSteps, hsku, hp, hfound, hs, hdeq] at h1 ⊢
        rw [← h1.1]
      · rw [Bool.not_eq_true] at hdeq
        simp [update_product, updateProductSteps, hsku, hp, hfound, hs, hdeq] at h1 ⊢
        rw [← h1.1]
    have hfound1 : db1.findProduct sku = some (updRow sku price stock now1 row0) := by
      rw [h1']
      unfold DB.findProduct
      rw [findProduct_map_updRow]
      unfold DB.findProduct at hfound
      rw [hfound]
      rfl
    have hprice1 : (updRow sku price stock now1 row0).current_price = price :=
      updRow_current_price sku price stock now1 row0 hrow0
    refine ⟨{ products := db1.products.map (updRow sku price stock now2),
              price_history := db1.price_history }, by
      simp [update_product, updateProductSteps, hsku, hp, hs, hfound1, hprice1,
        Dec.deq_refl], rfl, ?_⟩
    conv_rhs => rw [h1']
    rw [h1']
    simp only [List.map_map]
    apply List.map_congr_left
    intro r hr
    simp only [Function.comp]
    rw [updRow_updRow]
    exact content_updRow sku price stock now1 now2 r

/-- Witness for C7: after inserting SKU1 into an empty database, observing the
same record again takes the no-history branch, preserves the history and the
row content. -/
theorem C7_idempotent_witness :
    ∃ db2, update_product item1 9 dbOne =
        (db2, .ok .UpdatedNoHistory) ∧
      db2.price_history = dbOne.price_history ∧
      db2.products.map ProductRow.content =
        dbOne.products.map ProductRow.content :=
  C7_idempotent item1 7 9 ⟨[], []⟩ dbOne .Inserted rfl

/-- The UPDATE statement leaves the multiset of skus in the products table
untouched. -/
theorem map_sku_map_updRow (l : List ProductRow) (sku : String) (np : Dec)
    (st : Int) (n : Nat) :
    l.map (ProductRow.sku ∘ updRow sku np st n) = l.map ProductRow.sku := by
  apply List.map_congr_left
  intro r hr
  simp [Function.comp, updRow_sku]

/-- Claim C8: every reconcile call preserves the table invariants: the
current-state table keeps at most one row per identifier, and the history
table only ever grows at the end, leaving every existing entry in place. -/
theorem C8_invariants (p : ItemRecord) (now : Nat) (db : DB)
    (hnd : (db.products.map ProductRow.sku).Nodup) :
    ((update_product p now db).1.products.map ProductRow.sku).Nodup ∧
    ∃ tail, (update_product p now db).1.price_history =
      db.price_history ++ tail := by
  cases hsku : p.sku with
  | none =>
    refine ⟨?_, [], ?_⟩ <;>
      simp [update_product, updateProductSteps, hsku, hnd]
  | some sku =>
  cases hp : p.price with
  | none =>
    refine ⟨?_, [], ?_⟩ <;>
      simp [update_product, updateProductSteps, hsku, hp, hnd]
  | some price =>
  cases hfound : db.findProduct sku with
  | none =>
    cases hm : p.model with
    | none =>
      refine ⟨?_, [], ?_⟩ <;>
        simp [update_product, updateProductSteps, hsku, hp, hfound, hm, hnd]
    | some model =>
    cases hc : p.color with
    | none =>
      refine ⟨?_, [], ?_⟩ <;>
        simp [update_product, updateProductSteps, hsku, hp, hfound, hm, hc, hnd]
    | some color =>
    cases hs : p.in_stock with
    | none =>
      refine ⟨?_, [], ?_⟩ <;>
        simp [update_product, updateProductSteps, hsku, hp, hfound, hm, hc, hs,
          hnd]
    | some stock =>
      have hnotin : sku ∉ db.products.map ProductRow.sku := by
        intro hmem
        rcases List.mem_map.mp hmem with ⟨r, hr, hrsku⟩
        have := List.find?_eq_none.mp hfound r hr
        simp [hrsku] at this
      constructor
      · simp only [update_product, updateProductSteps, hsku, hp, hfound, hm,
          hc, hs, List.map_append]
        rw [List.nodup_append]
        refine ⟨hnd, List.nodup_singleton sku, ?_⟩
        intro a ha hb
        simp at hb
        subst hb
        exact hnotin ha
      · refine ⟨[{ sku := sku, price := price, stock_level := stock,
                   timestamp := now }], ?_⟩
        simp [update_product, updateProductSteps, hsku, hp, hfound, hm, hc, hs]
  | some row0 =>
    cases hs : p.in_stock with
    | none =>
      refine ⟨?_, [], ?_⟩ <;>
        simp [update_product, updateProductSteps, hsku, hp, hfound, hs, hnd]
    | some stock =>
      by_cases hdeq : Dec.deq row0.current_price price = true
      · constructor
        · simp [update_product, updateProductSteps, hsku, hp, hfound, hs,
            hdeq]
          rw [map_sku_map_updRow]
          exact hnd
        · exact ⟨[], by
            simp [update_product, updateProductSteps, hsku, hp, hfound, hs,
              hdeq]⟩
      · rw [Bool.not_eq_true] at hdeq
        constructor
        · simp [update_product, updateProductSteps, hsku, hp, hfound, hs,
            hdeq]
          rw [map_sku_map_updRow]
          exact hnd
        · refine ⟨[{ sku := sku, price := price, stock_level := stock,
                     timestamp := now }], ?_⟩
          simp [update_product, updateProductSteps, hsku, hp, hfound, hs, hdeq]

/-- Witness for C8: reconciling a fresh observation of SKU3 against the
single-row database keeps skus duplicate-free and only appends to history. -/
theorem C8_invariants_witness :
    ((update_product item3 9 dbOne).1.products.map ProductRow.sku).Nodup ∧
    ∃ tail, (update_product item3 9 dbOne).1.price_history =
      dbOne.price_history ++ tail :=
  C8_invariants item3 9 dbOne (by decide)

/-- Claim C9: a first-observed record lacking the optional ean or category
keys still reconciles, storing the empty string for them; a record lacking any
required key (identifier, model, color, price, stock count) fails and writes
nothing. -/
theorem C9_optional_vs_required (p : ItemRecord) (now : Nat) (db : DB)
    (habsent : ∀ sku, p.sku = some sku → db.findProduct sku = none) :
    (∀ sku model color price stock, p.sku = some sku →
       p.ean = none → p.cat_name = none →
       p.model = some model → p.color = some color →
       p.price = some price → p.in_stock = some stock →
       update_product p now db =
         ({ products := db.products ++
              [{ sku := sku, model := model, color := color,
                 current_price := price, stock_level := stock,
                 ean := emptyStr, category := emptyStr,
                 last_updated := now }],
            price_history := db.price_history ++
              [{ sku := sku, price := price, stock_level := stock,
                 timestamp := now }] },
          .ok .Inserted)) ∧
    ((p.sku = none ∨ p.model = none ∨ p.color = none ∨ p.price = none ∨
        p.in_stock = none) →
      ∃ e, update_product p now db = (db, .error e)) := by
  constructor
  · intro sku model color price stock hsku hean hcat hm hc hp hs
    have habs := habsent sku hsku
    simp [update_product, updateProductSteps, hsku, hm, hc, hp, hs, habs,
      hean, hcat]
  · intro hdisj
    cases hsku : p.sku with
    | none =>
      exact ⟨.skuMissing, by simp [update_product, updateProductSteps, hsku]⟩
    | some sku =>
    have habs := habsent sku hsku
    cases hp : p.price with
    | none =>
      exact ⟨.identified sku .price,
        by simp [update_product, updateProductSteps, hsku, hp]⟩
    | some price =>
    cases hm : p.model with
    | none =>
      exact ⟨.identified sku .model,
        by simp [update_product, updateProductSteps, hsku, hp, habs, hm]⟩
    | some model =>
    cases hc : p.color with
    | none =>
      exact ⟨.identified sku .color,
        by simp [update_product, updateProductSteps, hsku, hp, habs, hm, hc]⟩
    | some color =>
    cases hs : p.in_stock with
    | none =>
      exact ⟨.identified sku .in_stock,
        by simp [update_product, updateProductSteps, hsku, hp, habs, hm, hc,
          hs]⟩
    | some stock =>
      rcases hdisj with h | h | h | h | h <;> simp_all

/-- Witness for C9: `item1` carries no ean and no category yet inserts with
empty strings stored for both, while `item2bad` (missing the required model
key) fails on the empty database and writes nothing. -/
theorem C9_optional_vs_required_witness :
    update_product item1 7 ⟨[], []⟩ =
      ({ products :=
           [{ sku := sku1, model := modelA, color := colorRed,
              current_price := ⟨1999, 2⟩, stock_level := 5,
              ean := emptyStr, category := emptyStr, last_updated := 7 }],
         price_history :=
           [{ sku := sku1, price := ⟨1999, 2⟩, stock_level := 5,
              timestamp := 7 }] },
       .ok .Inserted) ∧
    ∃ e, update_product item2bad 7 ⟨[], []⟩ = (⟨[], []⟩, .error e) :=
  ⟨(C9_optional_vs_required item1 7 ⟨[], []⟩ (fun _ _ => rfl)).1
     sku1 modelA colorRed ⟨1999, 2⟩ 5 rfl rfl rfl rfl rfl rfl rfl,
   (C9_optional_vs_required item2bad 7 ⟨[], []⟩ (fun _ _ => rfl)).2
     (Or.inr (Or.inl rfl))⟩

/-- Rows keyed by an identifier the UPDATE statement does not target are left
exactly as they were. -/
theorem filter_map_updRow (l : List ProductRow) (sku q : String) (np : Dec)
    (st : Int) (n : Nat) (hq : q ≠ sku) :
    (l.map (updRow sku np st n)).filter (fun r => r.sku == q) =
      l.filter (fun r => r.sku == q) := by
  induction l with
  | nil => rfl
  | cons r rest ih =>
    simp only [List.map_cons, List.filter_cons, updRow_sku]
    by_cases hrq : (r.sku == q) = true
    · have h1 : r.sku = q := by simpa using hrq
      have hrs : (r.sku == sku) = false := by
        rw [h1]
        exact beq_eq_false_iff_ne.mpr hq
      have hupd : updRow sku np st n r = r := by simp [updRow, hrs]
      rw [hupd]
      simp [hrq, ih]
    · rw [Bool.not_eq_true] at hrq
      simp [hrq, ih]

/-- Claim C10: reconciling an item touches only the rows keyed by that item's
identifier: for every other identifier, its current-state rows and history
entries are unchanged, whether the call succeeds or fails. -/
theorem C10_frame_effect (p : ItemRecord) (now : Nat) (db : DB)
    (sku q : String) (hsku : p.sku = some sku) (hq : q ≠ sku) :
    (update_product p now db).1.products.filter (fun r => r.sku == q) =
      db.products.filter (fun r => r.sku == q) ∧
    (update_product p now db).1.price_history.filter (fun h => h.sku == q) =
      db.price_history.filter (fun h => h.sku == q) := by
  have hqs : (sku == q) = false := beq_eq_false_iff_ne.mpr (Ne.symm hq)
  cases hp : p.price with
  | none => simp [update_product, updateProductSteps, hsku, hp]
  | some price =>
  cases hfound : db.findProduct sku with
  | none =>
    cases hm : p.model with
    | none => simp [update_product, updateProductSteps, hsku, hp, hfound, hm]
    | some model =>
    cases hc : p.color with
    | none =>
      simp [update_product, updateProductSteps, hsku, hp, hfound, hm, hc]
    | some color =>
    cases hs : p.in_stock with
    | none =>
      simp [update_product, updateProductSteps, hsku, hp, hfound, hm, hc, hs]
    | some stock =>
      constructor <;>
        simp [update_product, updateProductSteps, hsku, hp, hfound, hm, hc,
          hs, List.filter_append, hqs]
  | some row0 =>
    cases hs : p.in_stock with
    | none => simp [update_product, updateProductSteps, hsku, hp, hfound, hs]
    | some stock =>
      have hfilter := filter_map_updRow db.products sku q price stock now hq
      by_cases hdeq : Dec.deq row0.current_price price = true
      · constructor <;>
          simp [update_product, updateProductSteps, hsku, hp, hfound, hs,
            hdeq, hfilter]
      · rw [Bool.not_eq_true] at hdeq
        constructor <;>
          simp [update_product, updateProductSteps, hsku, hp, hfound, hs,
            hdeq, hfilter, List.filter_append, hqs]

/-- Witness for C10: inserting SKU3 into `dbOne` leaves SKU1's row and history
entries untouched. -/
theorem C10_frame_effect_witness :
    (update_product item3 9 dbOne).1.products.filter
        (fun r => r.sku == sku1) =
      dbOne.products.filter (fun r => r.sku == sku1) ∧
    (update_product item3 9 dbOne).1.price_history.filter
        (fun h => h.sku == sku1) =
      dbOne.price_history.filter (fun h => h.sku == sku1) :=
  C10_frame_effect item3 9 dbOne sku3 sku1 rfl (by decide)
